import Mathlib

/-!
Shallow embedding of the realtime synchronization engine of the repository
(class RealtimeService): connection lifecycle, exponential backoff with a
reconnect-storm guard, polling fallback, and the send and leave operations.
The state fields mirror the private fields of the class; timer handles are
modelled as pending flags, and transport and store interactions appear as
explicit event parameters and emitted effects.
-/

/-- A collaborator record as produced by getCollaborators. -/
structure Collaborator where
  id : String
  email : String
  permission : String
  status : String
  userId : Option String
deriving DecidableEq

/-- A document update as used by onUpdate and sendUpdate. The source field
names are from and to; from is a reserved word in Lean, hence fromPos and
toPos. -/
structure DocumentUpdate where
  type : String
  fromPos : Int
  toPos : Int
  text : String
deriving DecidableEq

/-- A raw broadcast payload: every field may be absent, since the wire
format is unchecked JSON. -/
structure Payload where
  type : Option String
  fromPos : Option Int
  toPos : Option Int
  text : Option String
deriving DecidableEq

/-- The mutable state of one RealtimeService instance. hasCollabCb records
whether the optional onCollaboratorUpdate callback was supplied to the
constructor. -/
structure RS where
  channel : Bool
  documentId : Option String
  retryCount : Nat
  retryTimeout : Bool
  isConnecting : Bool
  pollInterval : Bool
  lastFetchedContent : Option String
  usePolling : Bool
  lastReconnectTime : Int
  hasCollabCb : Bool
deriving DecidableEq

/-- Observable effects: callback invocations and transport calls. -/
inductive Eff where
  | degradedError
  | scheduleRetry (delay : Nat)
  | connect
  | send (u : DocumentUpdate)
  | deliverUpdate (u : DocumentUpdate)
  | onUpdateRaw (p : Payload)
  | deliverCollabs (cs : List Collaborator)
deriving DecidableEq

/-- The attempt ceiling of the service. -/
def maxRetries : Nat := 5

/-- Fresh instance state, as set by the field defaults of the class. -/
def initRS (hasCollabCb : Bool) : RS :=
  { channel := false, documentId := none, retryCount := 0, retryTimeout := false,
    isConnecting := false, pollInterval := false, lastFetchedContent := none,
    usePolling := false, lastReconnectTime := 0, hasCollabCb := hasCollabCb }

/-- The backoff delay line of handleDisconnection:
min(1000 * 2 ^ retryCount, 30000). -/
def backoffDelay (n : Nat) : Nat := min (1000 * 2 ^ n) 30000

/-- The reconnect-storm guard condition of handleDisconnection:
lastReconnectTime is set (nonzero, truthy) and the current time is within
30000 ms of it. -/
def stormGuard (s : RS) (now : Int) : Bool :=
  decide (s.lastReconnectTime ≠ 0) && decide (now - s.lastReconnectTime < 30000)

/-- startPolling: returns unless a document is joined and no interval is
active; reads the current content into lastFetchedContent (a failed read is
caught and leaves the snapshot unchanged) and starts the interval. The
fetch argument is the outcome of the store read: none means the read threw,
some c means it returned content c (itself nullable). -/
def startPolling (s : RS) (fetch : Option (Option String)) : RS :=
  if s.documentId.isNone || s.pollInterval then s
  else
    match fetch with
    | some c => { s with lastFetchedContent := c, pollInterval := true }
    | none => { s with pollInterval := true }

/-- handleDisconnection: at or beyond maxRetries, surface the degraded-mode
error and switch to polling mode; otherwise apply the storm guard, compute
the backoff delay from the (possibly advanced) counter, increment the
counter, record the time and schedule a reconnect timer. -/
def handleDisconnection (s : RS) (now : Int) (fetch : Option (Option String)) :
    RS × List Eff :=
  if maxRetries ≤ s.retryCount then
    (startPolling { s with usePolling := true } fetch, [Eff.degradedError])
  else
    let rc := if stormGuard s now then min (s.retryCount + 2) (maxRetries - 1)
              else s.retryCount
    ({ s with retryCount := rc + 1, lastReconnectTime := now, retryTimeout := true },
     [Eff.scheduleRetry (backoffDelay rc)])

/-- connectToChannel: returns unless a document is set and no connect is in
flight; clears any pending retry timer, creates a channel and initiates the
subscription (the net effect on isConnecting is false: it is set at entry
and cleared once the subscribe call returns). Subscription outcomes arrive
later as subscribed or failure events. -/
def connectToChannel (s : RS) : RS × List Eff :=
  if s.documentId.isNone || s.isConnecting then (s, [])
  else ({ s with retryTimeout := false, channel := true, isConnecting := false },
        [Eff.connect])

/-- leaveDocument: clears the retry timer and the poll interval,
unsubscribes and drops the channel (an unsubscribe error is caught), and
resets the counters and flags. The document id is cleared only when a
channel was held, exactly as in the source. Always succeeds, from every
state. -/
def leaveDocument (s : RS) : RS :=
  { s with retryTimeout := false, pollInterval := false,
           channel := false,
           documentId := if s.channel then none else s.documentId,
           retryCount := 0, isConnecting := false, usePolling := false,
           lastFetchedContent := none }

/-- joinDocument: leaves any current document first, records the new id,
resets the retry counter and connects. -/
def joinDocument (s : RS) (d : String) : RS × List Eff :=
  let s0 := if s.channel then leaveDocument s else s
  connectToChannel { s0 with documentId := some d, retryCount := 0 }

/-- sendUpdate: throws when no channel or no document is held; in polling
mode returns without any transport call; otherwise performs one broadcast
send on the channel. -/
def sendUpdate (s : RS) (u : DocumentUpdate) : Except String (List Eff) :=
  if !s.channel || s.documentId.isNone then
    Except.error "Not connected to a document"
  else if s.usePolling then Except.ok []
  else Except.ok [Eff.send u]

/-- One firing of the polling interval callback. doc is the store read of
the document content (none: the read threw and the tick is abandoned);
collabs is the collaborator read (none: it threw, after the content part
already ran). When the read content differs from the snapshot, a single
replace update over the whole previous snapshot length is delivered and the
snapshot is replaced; when the optional collaborator callback exists, it is
invoked with the freshly read set. A tick cannot fire once the interval has
been cleared. -/
def pollTick (s : RS) (doc : Option (Option String))
    (collabs : Option (List Collaborator)) : RS × List Eff :=
  if !s.pollInterval then (s, [])
  else if s.documentId.isNone then (s, [])
  else
    match doc with
    | none => (s, [])
    | some c =>
      let su := if c ≠ s.lastFetchedContent then
          ({ s with lastFetchedContent := c },
           [Eff.deliverUpdate
              { type := "replace", fromPos := 0,
                toPos := ((s.lastFetchedContent.getD "").length : Int),
                text := c.getD "" }])
        else (s, [])
      if s.hasCollabCb then
        match collabs with
        | some cs => (su.1, su.2 ++ [Eff.deliverCollabs cs])
        | none => su
      else su

/-- External events driving one instance. -/
inductive Ev where
  | join (d : String)
  | leave
  | subscribed
  | failure (now : Int) (fetch : Option (Option String))
  | retryFire
  | broadcast (p : Payload)
  | pollTick (doc : Option (Option String)) (collabs : Option (List Collaborator))

/-- One event step. subscribed and broadcast are channel callbacks, so they
require a held channel; retryFire models the reconnect timer, which cannot
fire once cleared, and the timer callback itself re-checks the document id
before reconnecting. The broadcast handler passes the raw payload to
onUpdate through an unchecked cast, exactly as the source does. -/
def step (s : RS) (e : Ev) : RS × List Eff :=
  match e with
  | .join d => joinDocument s d
  | .leave => (leaveDocument s, [])
  | .subscribed =>
      if s.channel then ({ s with retryCount := 0, isConnecting := false }, [])
      else (s, [])
  | .failure now fetch => handleDisconnection s now fetch
  | .retryFire =>
      if s.retryTimeout then
        if s.documentId.isSome then connectToChannel s else (s, [])
      else (s, [])
  | .broadcast p => if s.channel then (s, [Eff.onUpdateRaw p]) else (s, [])
  | .pollTick doc collabs => pollTick s doc collabs

/-- Run a list of events, accumulating the emitted effects. -/
def run (s : RS) : List Ev → RS × List Eff
  | [] => (s, [])
  | e :: evs =>
    let r1 := step s e
    let r2 := run r1.1 evs
    (r2.1, r1.2 ++ r2.2)

/-- Number of degraded-mode error callback invocations in a trace. -/
def countDegraded : List Eff → Nat
  | [] => 0
  | Eff.degradedError :: r => countDegraded r + 1
  | _ :: r => countDegraded r

/-- The reconnect delays scheduled in a trace, in order. -/
def scheduledDelays : List Eff → List Nat
  | [] => []
  | Eff.scheduleRetry d :: r => d :: scheduledDelays r
  | _ :: r => scheduledDelays r

/-- The updates delivered to the remote-update callback in a trace. -/
def deliveredUpdates : List Eff → List DocumentUpdate
  | [] => []
  | Eff.deliverUpdate u :: r => u :: deliveredUpdates r
  | _ :: r => deliveredUpdates r

/-- The collaborator sets delivered to the collaborator callback in a
trace. -/
def collabCalls : List Eff → List (List Collaborator)
  | [] => []
  | Eff.deliverCollabs cs :: r => cs :: collabCalls r
  | _ :: r => collabCalls r

/-- Modelled from the spec: the Update Codec decode operation (decoding
fails with MalformedUpdate if required fields are missing or from is
greater than to). No such validation exists in the source: the broadcast
handler casts the payload and passes it through, so this definition serves
only as the comparison point for that divergence. -/
def decodeUpdate (p : Payload) : Except String DocumentUpdate :=
  match p.fromPos, p.toPos with
  | some f, some t =>
      if t < f then Except.error "MalformedUpdate"
      else Except.ok { type := p.type.getD "replace", fromPos := f, toPos := t,
                       text := p.text.getD "" }
  | _, _ => Except.error "MalformedUpdate"

/-- A live state: channel held, document joined, not polling. -/
def sLive : RS :=
  { channel := true, documentId := some "doc-1", retryCount := 0,
    retryTimeout := false, isConnecting := false, pollInterval := false,
    lastFetchedContent := none, usePolling := false, lastReconnectTime := 0,
    hasCollabCb := false }

/-- A polling state after retries were exhausted. -/
def sPolling : RS :=
  { channel := true, documentId := some "doc-1", retryCount := 5,
    retryTimeout := false, isConnecting := false, pollInterval := true,
    lastFetchedContent := some "hello", usePolling := true,
    lastReconnectTime := 1000, hasCollabCb := true }

/-- A state with two retries already used, no recent reconnect recorded. -/
def sRetry2 : RS := { sLive with retryCount := 2 }

/-- A state where the storm guard is active at time 6000. -/
def sGuard0 : RS := { sLive with lastReconnectTime := 5000 }

/-- A guard-active state with four retries already used. -/
def sGuard4 : RS := { sLive with retryCount := 4, lastReconnectTime := 5000 }

/-- A joined state in polling mode with a held channel and document. -/
def sPollSend : RS := { sLive with usePolling := true }

/-- A sample update. -/
def u0 : DocumentUpdate := { type := "insert", fromPos := 5, toPos := 5, text := "hi" }

/-- A broadcast payload missing the required from and to fields. -/
def malformedPayload : Payload :=
  { type := some "insert", fromPos := none, toPos := none, text := some "hi" }

/-- C2: for every attempt count n in [0, 4], when a disconnection is handled
with retryCount = n and the storm guard is inactive (so the delay formula
reads the counter value n), the scheduled reconnect delay equals
min(1000 * 2 ^ n, 30000) milliseconds. -/
theorem c2_theorem (s : RS) (now : Int) (fetch : Option (Option String)) (n : Nat)
    (hn : n ≤ 4) (hrc : s.retryCount = n) (hg : stormGuard s now = false) :
    (handleDisconnection s now fetch).2 =
      [Eff.scheduleRetry (min (1000 * 2 ^ n) 30000)] := by
  have hn5 : ¬ (maxRetries ≤ n) := by unfold maxRetries; omega
  simp [handleDisconnection, hrc, hn5, hg, backoffDelay]

/-- C2 witness: at attempt count 2 and time 50 with no recorded reconnect,
the scheduled delay is min(1000 * 4, 30000) = 4000 ms. -/
theorem c2_witness :
    (handleDisconnection sRetry2 50 none).2 =
      [Eff.scheduleRetry (min (1000 * 2 ^ 2) 30000)] :=
  c2_theorem sRetry2 50 none 2 (by decide) rfl (by decide)

/-- C3 counterexample: with the storm guard active and retryCount = 0, the
handler leaves the counter at 3, not at the value 2 that one extra step
beyond the normal increment would give; and with retryCount = 4 the
post-handler counter is 5, exceeding maxRetries - 1 = 4. -/
theorem c3_counterexample :
    (handleDisconnection sGuard0 6000 none).1.retryCount = 3 ∧ (3 : Nat) ≠ 2 ∧
    (handleDisconnection sGuard4 6000 none).1.retryCount = 5 ∧ ¬ ((5 : Nat) ≤ 4) := by
  refine ⟨rfl, by decide, rfl, by decide⟩

/-- C3 (amended): when two reconnects are scheduled within 30 seconds of
each other, the counter is first advanced to min(count + 2, 4) — up to two
extra steps, with that pre-increment value capped at maxRetries - 1 = 4 —
and then incremented normally (so the stored counter may reach 5), and a
retry is still scheduled, with the backoff delay computed from the advanced
count, which is at least 1000 ms, never an immediate retry. -/
theorem c3_theorem (s : RS) (now : Int) (fetch : Option (Option String))
    (h5 : s.retryCount < maxRetries) (hg : stormGuard s now = true) :
    (handleDisconnection s now fetch).1.retryCount = min (s.retryCount + 2) 4 + 1 ∧
    min (s.retryCount + 2) 4 ≤ 4 ∧
    (handleDisconnection s now fetch).1.retryTimeout = true ∧
    (handleDisconnection s now fetch).2 =
      [Eff.scheduleRetry (backoffDelay (min (s.retryCount + 2) 4))] ∧
    1000 ≤ backoffDelay (min (s.retryCount + 2) 4) := by
  have hn5 : ¬ ((5 : Nat) ≤ s.retryCount) := by
    unfold maxRetries at h5; omega
  have hpow : (1 : Nat) ≤ 2 ^ min (s.retryCount + 2) 4 :=
    Nat.one_le_two_pow
  refine ⟨?_, Nat.min_le_right _ _, ?_, ?_, ?_⟩
  · simp [handleDisconnection, hn5, hg, maxRetries]
  · simp [handleDisconnection, hn5, hg, maxRetries]
  · simp [handleDisconnection, hn5, hg, maxRetries]
  · unfold backoffDelay
    refine le_min ?_ (by norm_num)
    calc (1000 : Nat) = 1000 * 1 := by norm_num
    _ ≤ 1000 * 2 ^ min (s.retryCount + 2) 4 := Nat.mul_le_mul_left 1000 hpow

/-- C3 witness: a concrete guard-active disconnection at retryCount = 0. -/
theorem c3_witness :
    (handleDisconnection sGuard0 6000 none).1.retryCount =
      min (sGuard0.retryCount + 2) 4 + 1 ∧
    min (sGuard0.retryCount + 2) 4 ≤ 4 ∧
    (handleDisconnection sGuard0 6000 none).1.retryTimeout = true ∧
    (handleDisconnection sGuard0 6000 none).2 =
      [Eff.scheduleRetry (backoffDelay (min (sGuard0.retryCount + 2) 4))] ∧
    1000 ≤ backoffDelay (min (sGuard0.retryCount + 2) 4) :=
  c3_theorem sGuard0 6000 none (by decide) (by decide)

/-- C4: sendUpdate fails with the not-connected error exactly when no
channel or no document id is held (before any join, or after leaveDocument);
with a channel and document held it returns successfully with zero
transport sends in polling mode, and performs exactly one transport send
outside polling mode. -/
theorem c4_theorem (s : RS) (u : DocumentUpdate) :
    ((s.channel = false ∨ s.documentId = none) →
       sendUpdate s u = Except.error "Not connected to a document") ∧
    (s.channel = true → s.documentId.isSome = true → s.usePolling = true →
       sendUpdate s u = Except.ok []) ∧
    (s.channel = true → s.documentId.isSome = true → s.usePolling = false →
       sendUpdate s u = Except.ok [Eff.send u]) := by
  refine ⟨?_, ?_, ?_⟩
  · rintro (h | h) <;> simp [sendUpdate, h]
  · intro h1 h2 h3
    obtain ⟨d, hd⟩ := Option.isSome_iff_exists.mp h2
    simp [sendUpdate, h1, h3, hd]
  · intro h1 h2 h3
    obtain ⟨d, hd⟩ := Option.isSome_iff_exists.mp h2
    simp [sendUpdate, h1, h3, hd]

/-- C4 witness: concrete instances of the three cases — fresh instance,
polling mode, and live mode. -/
theorem c4_witness :
    sendUpdate (initRS false) u0 = Except.error "Not connected to a document" ∧
    sendUpdate sPollSend u0 = Except.ok [] ∧
    sendUpdate sLive u0 = Except.ok [Eff.send u0] :=
  ⟨(c4_theorem (initRS false) u0).1 (Or.inl rfl),
   (c4_theorem sPollSend u0).2.1 rfl rfl rfl,
   (c4_theorem sLive u0).2.2 rfl rfl rfl⟩

/-- C5: the source contradicts the claim. On a broadcast frame whose payload
is missing the required from and to fields, the handler does not decode or
drop it: it invokes the remote-update callback with the raw payload via an
unchecked cast (the connection state is indeed unchanged), whereas the
decode operation described by the spec rejects this payload with
MalformedUpdate. -/
theorem c5_theorem :
    step sLive (Ev.broadcast malformedPayload) =
      (sLive, [Eff.onUpdateRaw malformedPayload]) ∧
    decodeUpdate malformedPayload = Except.error "MalformedUpdate" :=
  ⟨rfl, rfl⟩

/-- C6: leaveDocument (a total function on states, hence it succeeds from
every state) clears the pending reconnect timer and the polling interval,
drops the channel, resets the mode and the counter, is idempotent (safe to
call repeatedly), and afterwards neither a retry timer firing, nor a poll
tick, nor an inbound broadcast can change the state or invoke any callback
or transport call on the torn-down instance. -/
theorem c6_theorem (s : RS) :
    (leaveDocument s).retryTimeout = false ∧
    (leaveDocument s).pollInterval = false ∧
    (leaveDocument s).channel = false ∧
    (leaveDocument s).usePolling = false ∧
    (leaveDocument s).retryCount = 0 ∧
    leaveDocument (leaveDocument s) = leaveDocument s ∧
    step (leaveDocument s) Ev.retryFire = (leaveDocument s, []) ∧
    (∀ doc cr, step (leaveDocument s) (Ev.pollTick doc cr) = (leaveDocument s, [])) ∧
    (∀ p, step (leaveDocument s) (Ev.broadcast p) = (leaveDocument s, [])) :=
  ⟨rfl, rfl, rfl, rfl, rfl, rfl, rfl, fun _ _ => rfl, fun _ => rfl⟩

/-- C7: on a poll tick in polling mode, when the freshly read content
differs from the stored snapshot, the remote-update callback receives
exactly one replace update from offset 0 to the previous snapshot length
(with the new content as text) and the snapshot is replaced; when the
content is unchanged, no remote update is delivered. -/
theorem c7_theorem (s : RS) (c : Option String) (cr : Option (List Collaborator))
    (hpi : s.pollInterval = true) (hdoc : s.documentId.isSome = true) :
    (c ≠ s.lastFetchedContent →
       deliveredUpdates (pollTick s (some c) cr).2 =
         [{ type := "replace", fromPos := 0,
            toPos := ((s.lastFetchedContent.getD "").length : Int),
            text := c.getD "" }] ∧
       (pollTick s (some c) cr).1.lastFetchedContent = c) ∧
    (c = s.lastFetchedContent → deliveredUpdates (pollTick s (some c) cr).2 = []) := by
  obtain ⟨d, hd⟩ := Option.isSome_iff_exists.mp hdoc
  constructor
  · intro hne
    by_cases hcb : s.hasCollabCb <;> cases cr <;>
      simp [pollTick, hpi, hd, hne, hcb, deliveredUpdates]
  · intro he
    by_cases hcb : s.hasCollabCb <;> cases cr <;>
      simp [pollTick, hpi, hd, he, hcb, deliveredUpdates]

/-- C7 witness: from snapshot "hello", a changed read delivers exactly one
replace update over the previous length with the new text, and an unchanged
read delivers none. -/
theorem c7_witness :
    (deliveredUpdates (pollTick sPolling (some (some "hello world!")) none).2 =
       [{ type := "replace", fromPos := 0,
          toPos := ((sPolling.lastFetchedContent.getD "").length : Int),
          text := (some "hello world!").getD "" }] ∧
     (pollTick sPolling (some (some "hello world!")) none).1.lastFetchedContent =
       some "hello world!") ∧
    deliveredUpdates (pollTick sPolling (some (some "hello")) none).2 = [] :=
  ⟨(c7_theorem sPolling (some "hello world!") none rfl rfl).1 (by decide),
   (c7_theorem sPolling (some "hello") none rfl rfl).2 (by decide)⟩

/-- The event list of the C1 counterexample: a join followed by five
consecutive transport failures in quick succession, with no subscription
success in between. -/
def c1run : List Ev :=
  [Ev.join "doc-1", Ev.failure 1 none, Ev.failure 2 none, Ev.failure 3 none,
   Ev.failure 4 none, Ev.failure 5 none]

/-- C1 counterexample: after a join and exactly five consecutive rapid
transport failures the controller is indeed in polling mode, but the
degraded-mode error callback has fired twice, not exactly once: the storm
guard advances the counter so the fourth failure already trips polling, and
the fifth failure re-fires the error. -/
theorem c1_counterexample :
    (run (initRS false) c1run).1.usePolling = true ∧
    (run (initRS false) c1run).1.pollInterval = true ∧
    countDegraded (run (initRS false) c1run).2 = 2 :=
  ⟨rfl, rfl, rfl⟩
/-- C1 (amended): from a joined state with a fresh retry state, four
consecutive rapid transport failures — each within 30 seconds of the
previously recorded reconnect time, so the storm guard skips ahead — leave
the controller in polling mode with the degraded-mode error callback fired
exactly once over the whole run. (With exactly five such failures the error
fires twice, see the counterexample; with failures spaced beyond the guard
window six failures are needed before polling is entered.) -/
theorem c1_theorem (s : RS) (t1 t2 t3 t4 : Int)
    (f1 f2 f3 f4 : Option (Option String))
    (hrc : s.retryCount = 0) (hlrt : s.lastReconnectTime = 0)
    (hpoll : s.pollInterval = false) (hdoc : s.documentId.isSome = true)
    (h1 : 0 < t1) (h2 : t2 - t1 < 30000) (h2p : 0 < t2) (h3 : t3 - t2 < 30000) :
    (run s [Ev.failure t1 f1, Ev.failure t2 f2, Ev.failure t3 f3,
            Ev.failure t4 f4]).1.usePolling = true ∧
    (run s [Ev.failure t1 f1, Ev.failure t2 f2, Ev.failure t3 f3,
            Ev.failure t4 f4]).1.pollInterval = true ∧
    countDegraded (run s [Ev.failure t1 f1, Ev.failure t2 f2, Ev.failure t3 f3,
            Ev.failure t4 f4]).2 = 1 := by
  obtain ⟨d, hd⟩ := Option.isSome_iff_exists.mp hdoc
  have ht1 : t1 ≠ 0 := by omega
  have ht2 : t2 ≠ 0 := by omega
  refine ⟨?_, ?_, ?_⟩ <;> cases f4 <;>
    simp [run, step, handleDisconnection, stormGuard, startPolling, maxRetries,
          backoffDelay, countDegraded, hrc, hlrt, hpoll, hd, ht1, ht2, h2, h3]

/-- C1 witness: a concrete live state and failure times 1, 2, 3, 4. -/
theorem c1_witness :
    (run sLive [Ev.failure 1 none, Ev.failure 2 none, Ev.failure 3 none,
            Ev.failure 4 none]).1.usePolling = true ∧
    (run sLive [Ev.failure 1 none, Ev.failure 2 none, Ev.failure 3 none,
            Ev.failure 4 none]).1.pollInterval = true ∧
    countDegraded (run sLive [Ev.failure 1 none, Ev.failure 2 none,
            Ev.failure 3 none, Ev.failure 4 none]).2 = 1 :=
  c1_theorem sLive 1 2 3 4 none none none none rfl rfl rfl rfl
    (by decide) (by decide) (by decide) (by decide)

/-- The C8 counterexample run up to the successful subscription. -/
def c8runA : List Ev :=
  [Ev.join "doc-1", Ev.failure 1000 none, Ev.retryFire, Ev.subscribed]

/-- The C8 counterexample run: one more failure 1 second after the
successful subscription. -/
def c8runB : List Ev := c8runA ++ [Ev.failure 2000 none]

/-- C8 counterexample: the successful subscription does reset the counter to
0, but the next failure arrives within 30 seconds of the recorded reconnect
time, so the storm guard advances the counter to 2 and the scheduled delay
is 4000 ms, not the base 1000 ms claimed. -/
theorem c8_counterexample :
    (run (initRS false) c8runA).1.retryCount = 0 ∧
    scheduledDelays (run (initRS false) c8runB).2 = [1000, 4000] ∧
    (4000 : Nat) ≠ 1000 :=
  ⟨rfl, rfl, by decide⟩

/-- C8 (amended): a successful subscription resets the attempt counter to 0,
and a subsequent transport failure computes the base delay of 1000 ms
provided the storm guard is inactive at that moment (no recorded reconnect,
or at least 30 seconds since it); within the 30-second window the guard
advances the counter first. -/
theorem c8_theorem (s : RS) (now : Int) (fetch : Option (Option String))
    (hch : s.channel = true)
    (hg : stormGuard (step s Ev.subscribed).1 now = false) :
    (step s Ev.subscribed).1.retryCount = 0 ∧
    (handleDisconnection (step s Ev.subscribed).1 now fetch).2 =
      [Eff.scheduleRetry 1000] := by
  have h0 : (step s Ev.subscribed).1.retryCount = 0 := by simp [step, hch]
  have hn5 : ¬ ((5 : Nat) ≤ (step s Ev.subscribed).1.retryCount) := by
    rw [h0]; omega
  refine ⟨h0, ?_⟩
  simp [handleDisconnection, maxRetries, hn5, hg, h0, backoffDelay]

/-- C8 witness: the live state, a failure 99 ms later with no recorded
reconnect time, hence an inactive storm guard. -/
theorem c8_witness :
    (step sLive Ev.subscribed).1.retryCount = 0 ∧
    (handleDisconnection (step sLive Ev.subscribed).1 99 none).2 =
      [Eff.scheduleRetry 1000] :=
  c8_theorem sLive 99 none rfl (by decide)

/-- The collaborator set of the C9 counterexample. -/
def cs0 : List Collaborator :=
  [{ id := "doc-1-a@x", email := "a@x", permission := "edit",
     status := "accepted", userId := none }]

/-- C9: the source contradicts the claim. In polling mode the collaborator
callback is invoked on every poll tick with the freshly read set, with no
stored last-observed set and no difference check: two consecutive ticks that
read the identical set (and unchanged content) invoke the callback twice. -/
theorem c9_theorem :
    collabCalls (run sPolling
      [Ev.pollTick (some (some "hello")) (some cs0),
       Ev.pollTick (some (some "hello")) (some cs0)]).2 = [cs0, cs0] :=
  rfl

/-- connectToChannel never changes the retry counter. -/
theorem connectToChannel_retryCount (s : RS) :
    (connectToChannel s).1.retryCount = s.retryCount := by
  unfold connectToChannel
  split <;> rfl

/-- startPolling never changes the retry counter. -/
theorem startPolling_retryCount (s : RS) (fetch : Option (Option String)) :
    (startPolling s fetch).retryCount = s.retryCount := by
  unfold startPolling
  split
  · rfl
  · cases fetch <;> rfl

/-- A poll tick never changes the retry counter. -/
theorem pollTick_retryCount (s : RS) (doc : Option (Option String))
    (cr : Option (List Collaborator)) :
    (pollTick s doc cr).1.retryCount = s.retryCount := by
  unfold pollTick
  by_cases hpi : s.pollInterval
  · simp only [hpi]
    by_cases hdn : s.documentId.isNone
    · simp [hdn]
    · simp only [hdn]
      cases doc with
      | none => rfl
      | some c =>
        by_cases hcb : s.hasCollabCb <;> by_cases hne : c ≠ s.lastFetchedContent <;>
          cases cr <;> simp [hcb, hne]
  · simp [hpi]

/-- Every single event step keeps the retry counter within the attempt
budget. -/
theorem step_retryCount_le (s : RS) (e : Ev) (h : s.retryCount ≤ 5) :
    (step s e).1.retryCount ≤ 5 := by
  cases e with
  | join d =>
      show (joinDocument s d).1.retryCount ≤ 5
      unfold joinDocument
      rw [connectToChannel_retryCount]
      exact Nat.zero_le 5
  | leave => exact Nat.zero_le 5
  | subscribed =>
      by_cases hc : s.channel
      · simp [step, hc]
      · simpa [step, hc] using h
  | failure now fetch =>
      show (handleDisconnection s now fetch).1.retryCount ≤ 5
      by_cases h5 : maxRetries ≤ s.retryCount
      · unfold handleDisconnection
        rw [if_pos h5]
        show (startPolling _ fetch).retryCount ≤ 5
        rw [startPolling_retryCount]
        exact h
      · unfold handleDisconnection
        rw [if_neg h5]
        show (if stormGuard s now then min (s.retryCount + 2) (maxRetries - 1)
              else s.retryCount) + 1 ≤ 5
        have hm := Nat.min_le_right (s.retryCount + 2) (maxRetries - 1)
        unfold maxRetries at h5 hm ⊢
        split <;> omega
  | retryFire =>
      simp only [step]
      split
      · split
        · rw [connectToChannel_retryCount]; exact h
        · exact h
      · exact h
  | broadcast p =>
      by_cases hc : s.channel <;> simpa [step, hc] using h
  | pollTick doc cr =>
      show (pollTick s doc cr).1.retryCount ≤ 5
      rw [pollTick_retryCount]; exact h

/-- Along any run, the retry counter stays within the attempt budget. -/
theorem run_retryCount_le (evs : List Ev) :
    ∀ s : RS, s.retryCount ≤ 5 → (run s evs).1.retryCount ≤ 5 := by
  induction evs with
  | nil => intro s h; exact h
  | cons e evs ih => intro s h; exact ih _ (step_retryCount_le s e h)

/-- C10: from a fresh instance, after every sequence of join, leave,
subscription, failure, timer and polling events, the retry counter never
exceeds maxRetries = 5: joins and leaves reset it, a disconnection at the
ceiling switches to polling without incrementing, and the storm-guard skip
is capped at 4 before the normal increment. -/
theorem c10_theorem (b : Bool) (evs : List Ev) :
    (run (initRS b) evs).1.retryCount ≤ 5 :=
  run_retryCount_le evs (initRS b) (Nat.zero_le 5)
